import Mathlib

/-
Verification of the AgriGuard parametric crop-insurance contract
(near-sdk-js contract in the repository) against its natural-language
specification.  The contract state and every state-changing entry point
are embedded as executable Lean definitions.  Token amounts (USDC
micro-units, handled with BigInt in the source) are represented as Nat;
JavaScript numbers used for weather readings, thresholds and coordinates
are represented as Rat (every branch of the risk tables multiplies by a
one-decimal constant, for which binary floating point and exact rational
arithmetic agree on all reachable products).  Policy and claim map keys
of the form policy_k / claim_k are represented by their numeric suffix k,
which determines the key string uniquely.  Error paths are Except.error;
a NEAR panic reverts the whole call, so the step function applyOp leaves
the state unchanged on error.
-/

namespace AgriGuard

attribute [local semireducible] Rat.mul Rat.inv Rat.add Rat.sub Rat.ofScientific

/-- ASCII lower-casing of a character, as toLowerCase acts on the crop
names compared here (they are all ASCII). -/
def lowerChar (ch : Char) : Char :=
  if 65 ≤ ch.toNat ∧ ch.toNat ≤ 90 then Char.ofNat (ch.toNat + 32) else ch

/-- ASCII lower-casing of a string. -/
def lowerStr (s : String) : String := String.mk (s.data.map lowerChar)

/-- Lifecycle status of a policy: pending, active, expired or claimed. -/
inductive PolicyStatus where
  | pending
  | active
  | expired
  | claimed
deriving DecidableEq, Repr

/-- Lifecycle status of a claim: pending, approved, rejected or paid. -/
inductive ClaimStatus where
  | pending
  | approved
  | rejected
  | paid
deriving DecidableEq, Repr

/-- GPS coordinates of a farm. -/
structure Location where
  lat : Rat
  lng : Rat
deriving DecidableEq, Repr

/-- Weather thresholds that trigger claims. -/
structure WeatherParameters where
  minTemp : Rat
  maxTemp : Rat
  minRainfall : Rat
  maxRainfall : Rat
deriving DecidableEq, Repr

/-- A weather observation as stored by the contract. -/
structure WeatherData where
  stationId : String
  timestamp : Nat
  temperature : Rat
  rainfall : Rat
  humidity : Rat
  windSpeed : Rat
  filecoinCid : Option String
deriving DecidableEq, Repr

/-- Payout trigger details recorded by process_policy_claims. -/
structure PayoutTrigger where
  triggeredAt : String
  actualRainfall : Rat
  expectedRainfall : Rat
  weatherCid : String
deriving DecidableEq, Repr

/-- An insurance policy.  The source class InsurancePolicy declares
exactly these fields; in particular it has no station identifier. -/
structure InsurancePolicy where
  policyId : Nat
  farmer : String
  cropType : String
  farmLocation : Location
  coverageAmount : Nat
  premium : Nat
  startDate : Int
  endDate : Int
  weatherParameters : WeatherParameters
  isActive : Bool
  claimsPaid : Nat
  premiumPaid : Nat
  status : PolicyStatus
  weatherDataCids : List String
  payoutTrigger : Option PayoutTrigger
deriving DecidableEq, Repr

/-- A claim. -/
structure Claim where
  claimId : Nat
  policyId : Nat
  farmer : String
  claimAmount : Nat
  reason : String
  weatherData : WeatherData
  status : ClaimStatus
  timestamp : Nat
deriving DecidableEq, Repr

/-- The account recognised as the USDC token contract. -/
def USDC_CONTRACT : String := "usdc.fakes.testnet"

def MIN_PREMIUM_USDC : Nat := 1000000

def MAX_COVERAGE_USDC : Nat := 1000000000000

def BASIS_POINTS : Nat := 10000

def DEFAULT_PREMIUM_RATE : Nat := 500

/-- Full contract state: the four lookup maps and the scalar fields. -/
structure ContractState where
  policies : Nat → Option InsurancePolicy
  claims : Nat → Option Claim
  authorizedOracles : String → Option Bool
  weatherDataStorage : String × Nat → Option WeatherData
  totalPolicies : Nat
  totalClaims : Nat
  totalPremiumsCollected : Nat
  totalClaimsPaid : Nat
  owner : String

/-- Point update of a Nat-keyed map. -/
def updN {α : Type} (f : Nat → Option α) (k : Nat) (v : α) : Nat → Option α :=
  fun x => if x = k then some v else f x

/-- Point update of a String-keyed map. -/
def updS {α : Type} (f : String → Option α) (k : String) (v : α) :
    String → Option α :=
  fun x => if x = k then some v else f x

/-- Point update of the weather-data map, keyed by station id and
timestamp (the source key is the string stationId_timestamp, which the
pair determines uniquely because the timestamp text has no underscore). -/
def updW (f : String × Nat → Option WeatherData) (k : String × Nat)
    (v : WeatherData) : String × Nat → Option WeatherData :=
  fun x => if x = k then some v else f x

/-- State right after init: empty maps except the initial oracle, zero
counters, the given owner. -/
def initState (owner : String) : ContractState where
  policies := fun _ => none
  claims := fun _ => none
  authorizedOracles := fun x =>
    if x = "weather-oracle.testnet" then some true else none
  weatherDataStorage := fun _ => none
  totalPolicies := 0
  totalClaims := 0
  totalPremiumsCollected := 0
  totalClaimsPaid := 0
  owner := owner

/-- Crop-specific risk multiplier table, with fallback 1.0 for unknown
crops, looked up on the lower-cased crop type. -/
def cropRiskMultiplier (cropType : String) : Rat :=
  let c := lowerStr cropType
  if c = "wheat" then 1
  else if c = "corn" then 12/10
  else if c = "rice" then 15/10
  else if c = "soybeans" then 11/10
  else if c = "cotton" then 13/10
  else if c = "barley" then 1
  else if c = "oats" then 1
  else if c = "tomatoes" then 14/10
  else if c = "potatoes" then 12/10
  else if c = "onions" then 12/10
  else 1

/-- Geographical risk factor from the absolute latitude. -/
def calculateGeographicalRisk (farmLocation : Location) : Rat :=
  let lat := |farmLocation.lat|
  if lat < 10 then 13/10
  else if lat < 47/2 then 12/10
  else if lat < 35 then 1
  else if lat < 50 then 11/10
  else 12/10

/-- Premium pricing: the base rate in basis points is scaled by the crop
multiplier and then by the geographical factor (each step floored, as
Math.floor in the source), applied to the coverage with BigInt division,
and floored at the minimum premium. -/
def calculatePremium (coverageAmount : Nat) (cropType : String)
    (farmLocation : Location) : Nat :=
  let rate1 : Nat := ⌊(DEFAULT_PREMIUM_RATE : Rat) * cropRiskMultiplier cropType⌋₊
  let rate2 : Nat := ⌊(rate1 : Rat) * calculateGeographicalRisk farmLocation⌋₊
  let premium := coverageAmount * rate2 / BASIS_POINTS
  if premium < MIN_PREMIUM_USDC then MIN_PREMIUM_USDC else premium

/-- Modelled from the spec: the premium-pricing formula as the spec words
it, crop-risk multiplier times geographic-risk multiplier times base rate
applied to the coverage, floored at the minimum premium.  Used only to
compare against calculatePremium, which is the source definition. -/
def specPremiumFormula (coverageAmount : Nat) (cropType : String)
    (farmLocation : Location) : Nat :=
  let raw : Nat :=
    ⌊(coverageAmount : Rat) *
      ((DEFAULT_PREMIUM_RATE : Rat) / (BASIS_POINTS : Rat) *
        cropRiskMultiplier cropType * calculateGeographicalRisk farmLocation)⌋₊
  max raw MIN_PREMIUM_USDC

/-- Inputs of createPolicy.  Dates are carried as the millisecond value
Date.getTime would produce for the given ISO strings. -/
structure PolicyInputs where
  cropType : String
  farmLocation : Location
  coverageAmount : Nat
  startDate : Int
  endDate : Int
  weatherParameters : WeatherParameters
deriving DecidableEq, Repr

def validCrops : List String :=
  ["wheat", "corn", "rice", "soybeans", "cotton", "barley", "oats",
   "tomatoes", "potatoes", "onions"]

/-- Input validation of createPolicy; now is the current time in the
same millisecond scale as the dates.  True means every assert passes. -/
def validatePolicyInputs (now : Int) (i : PolicyInputs) : Bool :=
  decide (MIN_PREMIUM_USDC ≤ i.coverageAmount) &&
  decide (i.coverageAmount ≤ MAX_COVERAGE_USDC) &&
  validCrops.contains (lowerStr i.cropType) &&
  decide (-90 ≤ i.farmLocation.lat ∧ i.farmLocation.lat ≤ 90) &&
  decide (-180 ≤ i.farmLocation.lng ∧ i.farmLocation.lng ≤ 180) &&
  decide (i.weatherParameters.minTemp < i.weatherParameters.maxTemp) &&
  decide (i.weatherParameters.minRainfall < i.weatherParameters.maxRainfall) &&
  decide (-50 ≤ i.weatherParameters.minTemp ∧ i.weatherParameters.maxTemp ≤ 60) &&
  decide (0 ≤ i.weatherParameters.minRainfall ∧
          i.weatherParameters.maxRainfall ≤ 5000) &&
  decide (now ≤ i.startDate) &&
  decide (i.startDate < i.endDate) &&
  decide ((30 : Int) * 24 * 60 * 60 * 1000 ≤ i.endDate - i.startDate) &&
  decide (i.endDate - i.startDate ≤ (365 : Int) * 24 * 60 * 60 * 1000)

/-- createPolicy: validate, price the premium, store a pending policy
with nothing paid yet under the key policy_(totalPolicies + 1), and
increment the policy counter.  farmer is the predecessor account. -/
def createPolicy (s : ContractState) (farmer : String) (now : Int)
    (i : PolicyInputs) : Except String (ContractState × Nat) :=
  if validatePolicyInputs now i then
    let premium := calculatePremium i.coverageAmount i.cropType i.farmLocation
    let pid := s.totalPolicies + 1
    let policy : InsurancePolicy :=
      { policyId := pid
        farmer := farmer
        cropType := i.cropType
        farmLocation := i.farmLocation
        coverageAmount := i.coverageAmount
        premium := premium
        startDate := i.startDate
        endDate := i.endDate
        weatherParameters := i.weatherParameters
        isActive := false
        claimsPaid := 0
        premiumPaid := 0
        status := PolicyStatus.pending
        weatherDataCids := []
        payoutTrigger := none }
    Except.ok
      ({ s with
          policies := updN s.policies pid policy
          totalPolicies := s.totalPolicies + 1 }, pid)
  else
    Except.error "InvalidParameters"

/-- The settlement callback.  predecessor is the direct caller of the
contract; msg is the result of parsing the attached message, none when
JSON parsing fails or no policy key can be extracted, some pid when it
names policy_pid.  The ok payload carries the new state and the amount
returned to the token contract as refund.  The source checks the caller,
the message, existence of the policy, the payer and the amount, in that
order, and activates otherwise; it never inspects the current status. -/
def ft_on_transfer (s : ContractState) (predecessor : String)
    (sender_id : String) (amount : Nat) (msg : Option Nat) :
    Except String (ContractState × Nat) :=
  if predecessor ≠ USDC_CONTRACT then
    Except.error "Only USDC contract can call ft_on_transfer"
  else
    match msg with
    | none => Except.ok (s, amount)
    | some pid =>
      match s.policies pid with
      | none => Except.ok (s, amount)
      | some policy =>
        if policy.farmer ≠ sender_id then Except.ok (s, amount)
        else if amount < policy.premium then Except.ok (s, amount)
        else
          let policy' :=
            { policy with
                premiumPaid := amount
                status := PolicyStatus.active
                isActive := true }
          let s' :=
            { s with
                policies := updN s.policies pid policy'
                totalPremiumsCollected := s.totalPremiumsCollected + amount }
          Except.ok (s', amount - policy.premium)

/-- submitWeatherData: only a caller whose oracle flag is set to true may
store an observation; the key pairs the station with the block timestamp.
checkAutomaticClaims in the source only logs, so it adds no mutation. -/
def submitWeatherData (s : ContractState) (caller : String)
    (blockTimestamp : Nat) (stationId : String)
    (temperature rainfall humidity windSpeed : Rat)
    (filecoinCid : Option String) : Except String ContractState :=
  if s.authorizedOracles caller ≠ some true then
    Except.error "Only authorized oracles can submit weather data"
  else
    let weatherData : WeatherData :=
      { stationId := stationId
        timestamp := blockTimestamp
        temperature := temperature
        rainfall := rainfall
        humidity := humidity
        windSpeed := windSpeed
        filecoinCid := filecoinCid }
    Except.ok
      { s with
          weatherDataStorage :=
            updW s.weatherDataStorage (stationId, blockTimestamp) weatherData }

/-- receive_weather: same oracle gate; stores an observation whose
measured fields are zero and whose anchor is the given Filecoin CID.
updatePoliciesWithWeatherCid in the source only logs. -/
def receive_weather (s : ContractState) (caller : String)
    (stationId : String) (timestamp : Nat) (filecoinCid : String) :
    Except String ContractState :=
  if s.authorizedOracles caller ≠ some true then
    Except.error "Only authorized oracles can receive weather data"
  else
    let weatherData : WeatherData :=
      { stationId := stationId
        timestamp := timestamp
        temperature := 0
        rainfall := 0
        humidity := 0
        windSpeed := 0
        filecoinCid := some filecoinCid }
    Except.ok
      { s with
          weatherDataStorage :=
            updW s.weatherDataStorage (stationId, timestamp) weatherData }

/-- The account the contract itself runs as (near.currentAccountId);
per the deployment script it is also the account passed to init as the
owner. -/
def CURRENT_ACCOUNT : String := "agriguard.testnet"

/-- triggerPayout asserts that the predecessor of the call is the
contract account itself; a plain method invocation from another method
of the contract keeps the original transaction caller as predecessor,
so the assert also fires on the internal payout paths whenever the
transaction was not signed by the contract account.  On success it only
issues the cross-contract ft_transfer promise and writes no state. -/
def triggerPayout (s : ContractState) (predecessor : String)
    (_recipient : String) (_amount : Nat) : Except String ContractState :=
  if predecessor ≠ CURRENT_ACCOUNT then
    Except.error "Only contract can trigger payouts"
  else
    Except.ok s

/-- executePayout: if the claim exists and is approved, invoke
triggerPayout (whose assert aborts the whole call when the transaction
caller is not the contract account), mark the claim paid, add the claim
amount to the claimsPaid of the policy and flip the policy to claimed,
and add the claim amount to the global total.  The isActive flag of the
policy is left untouched. -/
def executePayout (s : ContractState) (predecessor : String)
    (claimId : Nat) : Except String ContractState :=
  match s.claims claimId with
  | none => Except.ok s
  | some claim =>
    if claim.status ≠ ClaimStatus.approved then Except.ok s
    else
      match triggerPayout s predecessor claim.farmer claim.claimAmount with
      | Except.error e => Except.error e
      | Except.ok s0 =>
        let claim' := { claim with status := ClaimStatus.paid }
        let s1 := { s0 with claims := updN s0.claims claimId claim' }
        let s2 :=
          match s1.policies claim.policyId with
          | none => s1
          | some policy =>
            { s1 with
                policies := updN s1.policies claim.policyId
                  { policy with
                      claimsPaid := policy.claimsPaid + claim.claimAmount
                      status := PolicyStatus.claimed } }
        Except.ok { s2 with totalClaimsPaid := s2.totalClaimsPaid + claim.claimAmount }

/-- Automatic claim evaluation: a temperature outside its bounds
contributes 50 percent, a rainfall outside its bounds 60 percent, the
accumulator takes the maximum of the triggered contributions; when some
dimension is breached the claim amount is coverage times percentage over
100 with flooring BigInt division, the claim is approved and the payout
runs (propagating the triggerPayout panic, which reverts the call). -/
def processClaimAutomatically (s : ContractState) (predecessor : String)
    (claimId : Nat) : Except String ContractState :=
  match s.claims claimId with
  | none => Except.ok s
  | some claim =>
    match s.policies claim.policyId with
    | none => Except.ok s
    | some policy =>
      let w := claim.weatherData
      let p := policy.weatherParameters
      let tempBreach : Bool :=
        decide (w.temperature < p.minTemp) || decide (w.temperature > p.maxTemp)
      let rainBreach : Bool :=
        decide (w.rainfall < p.minRainfall) || decide (w.rainfall > p.maxRainfall)
      let pct1 : Nat := if tempBreach then max 0 50 else 0
      let pct2 : Nat := if rainBreach then max pct1 60 else pct1
      if tempBreach || rainBreach then
        let claimAmount := policy.coverageAmount * pct2 / 100
        let claim' :=
          { claim with
              claimAmount := claimAmount
              status := ClaimStatus.approved }
        let s' := { s with claims := updN s.claims claimId claim' }
        executePayout s' predecessor claimId
      else Except.ok s

/-- fileClaim: the caller must be the farmer of an existing policy whose
isActive flag is set; a pending claim with amount zero is stored under
claim_(totalClaims + 1), the counter is incremented, and automatic
evaluation runs on the fresh claim with the caller still the
predecessor, so a panic inside the payout reverts the whole call.
Returns the new claim key. -/
def fileClaim (s : ContractState) (caller : String) (blockTimestamp : Nat)
    (policyId : Nat) (reason : String) (weatherData : WeatherData) :
    Except String (ContractState × Nat) :=
  match s.policies policyId with
  | none => Except.error "Policy not found"
  | some policy =>
    if policy.farmer ≠ caller then
      Except.error "Only policy owner can file claims"
    else if !policy.isActive then
      Except.error "Policy is not active"
    else
      let claimId := s.totalClaims + 1
      let claim : Claim :=
        { claimId := claimId
          policyId := policyId
          farmer := caller
          claimAmount := 0
          reason := reason
          weatherData := weatherData
          status := ClaimStatus.pending
          timestamp := blockTimestamp }
      let s1 :=
        { s with
            claims := updN s.claims claimId claim
            totalClaims := s.totalClaims + 1 }
      match processClaimAutomatically s1 caller claimId with
      | Except.error e => Except.error e
      | Except.ok s2 => Except.ok (s2, claimId)

/-- adminTriggerPayout: only the owner, only for an existing approved
claim; invokes triggerPayout (whose assert additionally requires the
caller to be the contract account; an external call also mis-binds the
positional parameters in the source, so this model over-approximates
what external calls can reach), marks the claim paid (leaving its
claimAmount untouched), adds the given amount to the claimsPaid of the
policy, flips the policy to claimed, and adds it to the global total. -/
def adminTriggerPayout (s : ContractState) (caller recipient : String)
    (amount : Nat) (claimId : Nat) : Except String ContractState :=
  if caller ≠ s.owner then
    Except.error "Only contract owner can trigger manual payouts"
  else
    match s.claims claimId with
    | none => Except.error "Claim not found"
    | some claim =>
      if claim.status ≠ ClaimStatus.approved then
        Except.error "Claim not approved"
      else
        match triggerPayout s caller recipient amount with
        | Except.error e => Except.error e
        | Except.ok s0 =>
          let claim' := { claim with status := ClaimStatus.paid }
          let s1 := { s0 with claims := updN s0.claims claimId claim' }
          let s2 :=
            match s1.policies claim.policyId with
            | none => s1
            | some policy =>
              { s1 with
                  policies := updN s1.policies claim.policyId
                    { policy with
                        claimsPaid := policy.claimsPaid + amount
                        status := PolicyStatus.claimed } }
          Except.ok { s2 with totalClaimsPaid := s2.totalClaimsPaid + amount }

/-- addOracle: owner only, sets the flag to true. -/
def addOracle (s : ContractState) (caller oracle : String) :
    Except String ContractState :=
  if caller ≠ s.owner then Except.error "Only owner can add oracles"
  else Except.ok { s with authorizedOracles := updS s.authorizedOracles oracle true }

/-- removeOracle: owner only, sets the flag to false. -/
def removeOracle (s : ContractState) (caller oracle : String) :
    Except String ContractState :=
  if caller ≠ s.owner then Except.error "Only owner can remove oracles"
  else Except.ok { s with authorizedOracles := updS s.authorizedOracles oracle false }

/-- create_policy (snake-case surface): stores a pending policy with
placeholder location and thresholds under the key policy_totalPolicies
(the post-increment of the source uses the old counter value in the key)
and then increments the counter.  The station_id argument is only logged
in the event; no field of the stored policy records it. -/
def create_policy (s : ContractState) (farmer_id crop_type : String)
    (coverage_amount premium_amount : Nat) (_rainfall_threshold : Rat)
    (_station_id : String) (season_start season_end : Int) :
    ContractState × Nat :=
  let pid := s.totalPolicies
  let policy : InsurancePolicy :=
    { policyId := pid
      farmer := farmer_id
      cropType := crop_type
      farmLocation := { lat := 0, lng := 0 }
      coverageAmount := coverage_amount
      premium := premium_amount
      startDate := season_start
      endDate := season_end
      weatherParameters :=
        { minTemp := 0, maxTemp := 0, minRainfall := 0, maxRainfall := 0 }
      isActive := false
      claimsPaid := 0
      premiumPaid := 0
      status := PolicyStatus.pending
      weatherDataCids := []
      payoutTrigger := none }
  ({ s with
      policies := updN s.policies pid policy
      totalPolicies := s.totalPolicies + 1 }, pid)

/-- process_policy_claims: requires an existing pending policy; against a
fixed 30 mm threshold, rainfall at or above the threshold returns false
without mutation, rainfall below it records the trigger and moves the
policy directly to claimed, returning true. -/
def process_policy_claims (s : ContractState) (policy_id : Nat)
    (actual_rainfall : Rat) (weather_cid : String)
    (trigger_timestamp : String) : Except String (ContractState × Bool) :=
  match s.policies policy_id with
  | none => Except.error "Policy not found"
  | some policy =>
    if policy.status ≠ PolicyStatus.pending then
      Except.error "Policy is not pending"
    else
      let rainfallThreshold : Rat := 30
      if rainfallThreshold ≤ actual_rainfall then
        Except.ok (s, false)
      else
        let policy' :=
          { policy with
              status := PolicyStatus.claimed
              payoutTrigger := some
                { triggeredAt := trigger_timestamp
                  actualRainfall := actual_rainfall
                  expectedRainfall := rainfallThreshold
                  weatherCid := weather_cid } }
        Except.ok ({ s with policies := updN s.policies policy_id policy' }, true)

/-- update_policy_status: requires an existing policy and overwrites its
status with the requested value; no transition is validated.  The source
casts an arbitrary caller-supplied string; the model ranges over the
four status values that cast admits. -/
def update_policy_status (s : ContractState) (policy_id : Nat)
    (new_status : PolicyStatus) : Except String ContractState :=
  match s.policies policy_id with
  | none => Except.error "Policy not found"
  | some policy =>
    Except.ok
      { s with
          policies := updN s.policies policy_id
            { policy with status := new_status } }

/-- The exposed state-changing entry points, with per-call arguments.
View methods and automated_weather_check write nothing. -/
inductive Op where
  | createPolicy (farmer : String) (now : Int) (i : PolicyInputs)
  | ft_on_transfer (predecessor sender_id : String) (amount : Nat)
      (msg : Option Nat)
  | submitWeatherData (caller : String) (blockTimestamp : Nat)
      (stationId : String) (temperature rainfall humidity windSpeed : Rat)
      (filecoinCid : Option String)
  | fileClaim (caller : String) (blockTimestamp : Nat) (policyId : Nat)
      (reason : String) (weatherData : WeatherData)
  | triggerPayout (caller recipient : String) (amount : Nat)
  | adminTriggerPayout (caller recipient : String) (amount : Nat)
      (claimId : Nat)
  | addOracle (caller oracle : String)
  | removeOracle (caller oracle : String)
  | receive_weather (caller stationId : String) (timestamp : Nat)
      (filecoinCid : String)
  | create_policy (farmer_id crop_type : String)
      (coverage_amount premium_amount : Nat) (rainfall_threshold : Rat)
      (station_id : String) (season_start season_end : Int)
  | process_policy_claims (policy_id : Nat) (actual_rainfall : Rat)
      (weather_cid trigger_timestamp : String)
  | update_policy_status (policy_id : Nat) (new_status : PolicyStatus)

/-- Result state of one entry-point call; a panic reverts every write of
the call, so the state is returned unchanged on error. -/
def applyOp (s : ContractState) (op : Op) : ContractState :=
  match op with
  | Op.createPolicy farmer now i =>
    match createPolicy s farmer now i with
    | Except.ok (s', _) => s'
    | Except.error _ => s
  | Op.ft_on_transfer predecessor sender_id amount msg =>
    match ft_on_transfer s predecessor sender_id amount msg with
    | Except.ok (s', _) => s'
    | Except.error _ => s
  | Op.submitWeatherData caller ts st t r h w cid =>
    match submitWeatherData s caller ts st t r h w cid with
    | Except.ok s' => s'
    | Except.error _ => s
  | Op.fileClaim caller ts pid reason wd =>
    match fileClaim s caller ts pid reason wd with
    | Except.ok (s', _) => s'
    | Except.error _ => s
  | Op.triggerPayout caller recipient amount =>
    match triggerPayout s caller recipient amount with
    | Except.ok s' => s'
    | Except.error _ => s
  | Op.adminTriggerPayout caller recipient amount claimId =>
    match adminTriggerPayout s caller recipient amount claimId with
    | Except.ok s' => s'
    | Except.error _ => s
  | Op.addOracle caller oracle =>
    match addOracle s caller oracle with
    | Except.ok s' => s'
    | Except.error _ => s
  | Op.removeOracle caller oracle =>
    match removeOracle s caller oracle with
    | Except.ok s' => s'
    | Except.error _ => s
  | Op.receive_weather caller st ts cid =>
    match receive_weather s caller st ts cid with
    | Except.ok s' => s'
    | Except.error _ => s
  | Op.create_policy f c cov prem rt sid ss se =>
    (create_policy s f c cov prem rt sid ss se).1
  | Op.process_policy_claims pid ar wc tt =>
    match process_policy_claims s pid ar wc tt with
    | Except.ok (s', _) => s'
    | Except.error _ => s
  | Op.update_policy_status pid st =>
    match update_policy_status s pid st with
    | Except.ok s' => s'
    | Except.error _ => s

/-- States reachable from a freshly initialised contract by any sequence
of entry-point calls. -/
inductive Reachable : ContractState → Prop where
  | init (owner : String) : Reachable (initState owner)
  | step {s : ContractState} (op : Op) : Reachable s → Reachable (applyOp s op)

/-- Millisecond timestamp used as the current time in the examples. -/
def exNow : Int := 1700000000000

/-- Valid createPolicy inputs of the premium scenario: wheat, coverage
100000000 micro-USDC, temperate location, thresholds temp 5 to 30 and
rain 300 to 1000, a 31-day window starting at the current time. -/
def exInputs : PolicyInputs where
  cropType := "wheat"
  farmLocation := { lat := 30, lng := 10 }
  coverageAmount := 100000000
  startDate := 1700000000000
  endDate := 1700000000000 + 31 * 24 * 60 * 60 * 1000
  weatherParameters :=
    { minTemp := 5, maxTemp := 30, minRainfall := 300, maxRainfall := 1000 }

/-- The breaching observation of the claim scenario: temperature 45
against bounds 5 to 30 and rainfall 50 against bounds 300 to 1000. -/
def exWeather : WeatherData where
  stationId := "test_station"
  timestamp := 1700000100000
  temperature := 45
  rainfall := 50
  humidity := 60
  windSpeed := 15
  filecoinCid := none

def exFarmer : String := "farmer.testnet"

def exOwner : String := "agriguard.testnet"

/-- Freshly initialised contract. -/
def exS0 : ContractState := initState exOwner

/-- After createPolicy: policy_1 pending. -/
def exS1 : ContractState :=
  applyOp exS0 (Op.createPolicy exFarmer exNow exInputs)

/-- After settling the exact premium of 5000000: policy_1 active. -/
def exS2 : ContractState :=
  applyOp exS1 (Op.ft_on_transfer USDC_CONTRACT exFarmer 5000000 (some 1))

/-- A calm observation breaching neither threshold dimension. -/
def exCalmWeather : WeatherData where
  stationId := "test_station"
  timestamp := 1700000100000
  temperature := 20
  rainfall := 500
  humidity := 60
  windSpeed := 10
  filecoinCid := none

/-- Policy created by the contract account itself, for the one flow in
which the triggerPayout assert can pass. -/
def exT1 : ContractState :=
  applyOp exS0 (Op.createPolicy CURRENT_ACCOUNT exNow exInputs)

/-- The contract-account policy after exact premium settlement. -/
def exT2 : ContractState :=
  applyOp exT1 (Op.ft_on_transfer USDC_CONTRACT CURRENT_ACCOUNT 5000000 (some 1))

/-- After the contract account files the breaching claim on its own
policy: the predecessor equals the contract account, so the payout
completes, claim_1 is paid and policy_1 claimed. -/
def exT3 : ContractState :=
  applyOp exT2
    (Op.fileClaim CURRENT_ACCOUNT 1700000100000 1 "Extreme temperature damage"
      exWeather)

/-- The active farmer policy after update_policy_status overwrote its
status with claimed: status claimed, isActive still true. -/
def exU3 : ContractState :=
  applyOp exS2 (Op.update_policy_status 1 PolicyStatus.claimed)

/-- Whether an entry-point call succeeded. -/
def okB {ε α : Type} : Except ε α → Bool
  | Except.ok _ => true
  | Except.error _ => false

/-- Refund amount returned by a successful settlement callback. -/
def refundOf : Except String (ContractState × Nat) → Option Nat
  | Except.ok (_, r) => some r
  | Except.error _ => none

section Helpers

/-- Floor of a natural number scaled by a rational that is an integer
multiple of one basis point equals BigInt division by the basis points. -/
lemma natFloor_scale (a K : Nat) (q : Rat)
    (hq : q * (BASIS_POINTS : Rat) = (K : Rat)) :
    ⌊(a : Rat) * q⌋₊ = a * K / BASIS_POINTS := by
  have hB : ((BASIS_POINTS : Nat) : Rat) ≠ 0 := by
    unfold BASIS_POINTS; norm_num
  have hq' : q = ((K : Nat) : Rat) / ((BASIS_POINTS : Nat) : Rat) := by
    field_simp
    linarith [hq]
  rw [hq']
  rw [show (a : Rat) * (((K : Nat) : Rat) / ((BASIS_POINTS : Nat) : Rat))
        = (((a * K : Nat) : Rat)) / ((BASIS_POINTS : Nat) : Rat) by
      push_cast
      ring]
  rw [Nat.floor_div_nat, Nat.floor_natCast]

set_option maxHeartbeats 2000000 in
/-- The crop multiplier table only contains multiples of one tenth. -/
lemma cropRiskMultiplier_tenths (c : String) :
    ∃ k : Nat, cropRiskMultiplier c = (k : Rat) / 10 := by
  simp only [cropRiskMultiplier]
  split_ifs
  exacts [⟨10, by norm_num⟩, ⟨12, by norm_num⟩, ⟨15, by norm_num⟩,
    ⟨11, by norm_num⟩, ⟨13, by norm_num⟩, ⟨10, by norm_num⟩,
    ⟨10, by norm_num⟩, ⟨14, by norm_num⟩, ⟨12, by norm_num⟩,
    ⟨12, by norm_num⟩, ⟨10, by norm_num⟩]

/-- The geographic factor table only contains multiples of one tenth. -/
lemma geoRisk_tenths (loc : Location) :
    ∃ k : Nat, calculateGeographicalRisk loc = (k : Rat) / 10 := by
  simp only [calculateGeographicalRisk]
  split_ifs
  exacts [⟨13, by norm_num⟩, ⟨12, by norm_num⟩, ⟨10, by norm_num⟩,
    ⟨11, by norm_num⟩, ⟨12, by norm_num⟩]

/-- The two-step floored scaling of the source premium computation agrees
with the single-floor formula of the specification, because every
multiplier is a multiple of one tenth and the base rate is 500. -/
lemma calculatePremium_eq_specPremiumFormula (cov : Nat) (crop : String)
    (loc : Location) :
    calculatePremium cov crop loc = specPremiumFormula cov crop loc := by
  obtain ⟨mc, hc⟩ := cropRiskMultiplier_tenths crop
  obtain ⟨mg, hg⟩ := geoRisk_tenths loc
  simp only [calculatePremium, specPremiumFormula]
  rw [hc, hg]
  have h1 : ⌊(DEFAULT_PREMIUM_RATE : Rat) * ((mc : Rat) / 10)⌋₊ = 50 * mc := by
    rw [show (DEFAULT_PREMIUM_RATE : Rat) * ((mc : Rat) / 10)
          = ((50 * mc : Nat) : Rat) by
        unfold DEFAULT_PREMIUM_RATE; push_cast; ring]
    exact Nat.floor_natCast _
  rw [h1]
  have h2 : ⌊((50 * mc : Nat) : Rat) * ((mg : Rat) / 10)⌋₊ = 5 * mc * mg := by
    rw [show ((50 * mc : Nat) : Rat) * ((mg : Rat) / 10)
          = ((5 * mc * mg : Nat) : Rat) by push_cast; ring]
    exact Nat.floor_natCast _
  rw [h2]
  have h3 : ⌊(cov : Rat) *
      ((DEFAULT_PREMIUM_RATE : Rat) / (BASIS_POINTS : Rat) *
        ((mc : Rat) / 10) * ((mg : Rat) / 10))⌋₊
      = cov * (5 * mc * mg) / BASIS_POINTS := by
    apply natFloor_scale
    unfold DEFAULT_PREMIUM_RATE BASIS_POINTS
    push_cast
    ring
  rw [h3]
  split_ifs with hlt <;> omega

end Helpers

/-- The pending policy stored by createPolicy in the scenario. -/
def exPolicy1 : InsurancePolicy where
  policyId := 1
  farmer := exFarmer
  cropType := "wheat"
  farmLocation := { lat := 30, lng := 10 }
  coverageAmount := 100000000
  premium := 5000000
  startDate := 1700000000000
  endDate := 1700000000000 + 31 * 24 * 60 * 60 * 1000
  weatherParameters :=
    { minTemp := 5, maxTemp := 30, minRainfall := 300, maxRainfall := 1000 }
  isActive := false
  claimsPaid := 0
  premiumPaid := 0
  status := PolicyStatus.pending
  weatherDataCids := []
  payoutTrigger := none

/-- The paid claim produced by the contract-account fileClaim. -/
def exClaimT : Claim where
  claimId := 1
  policyId := 1
  farmer := CURRENT_ACCOUNT
  claimAmount := 60000000
  reason := "Extreme temperature damage"
  weatherData := exWeather
  status := ClaimStatus.paid
  timestamp := 1700000100000

/-- Replayed settlement delivery against the already active policy. -/
def exS2replay : ContractState :=
  applyOp exS2 (Op.ft_on_transfer USDC_CONTRACT exFarmer 5000000 (some 1))

/-- The active policy pushed back to pending by update_policy_status. -/
def exS2back : ContractState :=
  applyOp exS2 (Op.update_policy_status 1 PolicyStatus.pending)

/-- The pending policy moved straight to claimed by process_policy_claims
with 20 mm of rainfall against the fixed 30 mm threshold. -/
def exS1jump : ContractState :=
  applyOp exS1 (Op.process_policy_claims 1 20 "bafyCid" "2026-01-01T00:00:00Z")

/-- C9: a weather-observation submission by a caller whose oracle flag is
not true is rejected with the authorization error and stores nothing,
while a caller whose flag is true stores the observation, for both
submitWeatherData and receive_weather. -/
theorem oracle_gate_on_observations (s : ContractState) (caller : String)
    (ts : Nat) (stId : String) (t r h w : Rat) (cid : Option String)
    (stId2 : String) (ts2 : Nat) (fc : String) :
    (s.authorizedOracles caller ≠ some true →
      submitWeatherData s caller ts stId t r h w cid =
        Except.error "Only authorized oracles can submit weather data" ∧
      receive_weather s caller stId2 ts2 fc =
        Except.error "Only authorized oracles can receive weather data") ∧
    (s.authorizedOracles caller = some true →
      submitWeatherData s caller ts stId t r h w cid =
        Except.ok
          { s with weatherDataStorage :=
              (updW s.weatherDataStorage (stId, ts) ⟨stId, ts, t, r, h, w, cid⟩) } ∧
      receive_weather s caller stId2 ts2 fc =
        Except.ok
          { s with weatherDataStorage :=
              (updW s.weatherDataStorage (stId2, ts2)
                ⟨stId2, ts2, 0, 0, 0, 0, some fc⟩) }) := by
  constructor
  · intro hna
    constructor <;> simp [submitWeatherData, receive_weather, hna]
  · intro ha
    constructor <;> simp [submitWeatherData, receive_weather, ha]

/-- C9 witness: on the freshly initialised contract, a submission by the
farmer account is rejected and one by the initial oracle succeeds. -/
theorem oracle_gate_on_observations_witness :
    submitWeatherData exS0 exFarmer 5 "WXM_001" 25 500 70 10 none =
      Except.error "Only authorized oracles can submit weather data" ∧
    okB (submitWeatherData exS0 "weather-oracle.testnet" 5 "WXM_001"
      25 500 70 10 none) = true := by
  constructor
  · exact ((oracle_gate_on_observations exS0 exFarmer 5 "WXM_001" 25 500 70 10
      none "WXM_001" 6 "bafyCid").1 (by decide)).1
  · rw [((oracle_gate_on_observations exS0 "weather-oracle.testnet" 5 "WXM_001"
      25 500 70 10 none "WXM_001" 6 "bafyCid").2 (by decide)).1]
    rfl

/-- C10: a settlement that activates a policy with a transferred amount
at least the premium records the full transferred amount both in the
premiumPaid field and in totalPremiumsCollected while returning only the
excess; with a strictly larger amount the collected total exceeds the
old total plus the required premium. -/
theorem overpayment_recorded_in_full (s : ContractState) (sender : String)
    (amount pid : Nat) (policy : InsurancePolicy)
    (hp : s.policies pid = some policy) (hf : policy.farmer = sender)
    (hle : policy.premium ≤ amount) :
    ∃ s', ft_on_transfer s USDC_CONTRACT sender amount (some pid) =
        Except.ok (s', amount - policy.premium) ∧
      (s'.policies pid).map InsurancePolicy.premiumPaid = some amount ∧
      (s'.policies pid).map InsurancePolicy.status = some PolicyStatus.active ∧
      s'.totalPremiumsCollected = s.totalPremiumsCollected + amount ∧
      (policy.premium < amount →
        s.totalPremiumsCollected + policy.premium < s'.totalPremiumsCollected) := by
  have hmain : ft_on_transfer s USDC_CONTRACT sender amount (some pid) =
      Except.ok
        ({ s with
            policies := updN s.policies pid
              { policy with
                  premiumPaid := amount
                  status := PolicyStatus.active
                  isActive := true }
            totalPremiumsCollected := s.totalPremiumsCollected + amount },
          amount - policy.premium) := by
    simp only [ft_on_transfer, ne_eq, not_true_eq_false, if_false, hp]
    rw [if_neg (by simp [hf]), if_neg (Nat.not_lt.mpr hle)]
  refine ⟨_, hmain, by simp [updN], by simp [updN], rfl, fun hlt => ?_⟩
  show s.totalPremiumsCollected + policy.premium < s.totalPremiumsCollected + amount
  omega

/-- C10 witness: overpaying the 5000000 premium with 6000000 yields a
refund of only the 1000000 excess while recording 6000000. -/
theorem overpayment_recorded_in_full_witness :
    ∃ s', ft_on_transfer exS1 USDC_CONTRACT exFarmer 6000000 (some 1) =
        Except.ok (s', 6000000 - exPolicy1.premium) ∧
      (s'.policies 1).map InsurancePolicy.premiumPaid = some 6000000 ∧
      (s'.policies 1).map InsurancePolicy.status = some PolicyStatus.active ∧
      s'.totalPremiumsCollected = exS1.totalPremiumsCollected + 6000000 ∧
      (exPolicy1.premium < 6000000 →
        exS1.totalPremiumsCollected + exPolicy1.premium <
          s'.totalPremiumsCollected) :=
  overpayment_recorded_in_full exS1 exFarmer 6000000 1 exPolicy1
    (by decide) (by decide) (by decide)

/-- C6: a successful createPolicy stores a pending policy with zero
premium paid whose premium is the pure pricing function of coverage,
crop and location; the pricing function agrees with the crop-risk times
geographic-risk times base-rate formula floored at the minimum premium;
the wheat scenario premium is 5000000; and settling exactly that amount
leaves the policy active with premiumPaid 5000000. -/
theorem premium_pricing_correct :
    (∀ s farmer now i s' pid,
      createPolicy s farmer now i = Except.ok (s', pid) →
      (s'.policies pid).map InsurancePolicy.status = some PolicyStatus.pending ∧
      (s'.policies pid).map InsurancePolicy.premiumPaid = some 0 ∧
      (s'.policies pid).map InsurancePolicy.premium =
        some (calculatePremium i.coverageAmount i.cropType i.farmLocation)) ∧
    (∀ cov crop loc,
      calculatePremium cov crop loc = specPremiumFormula cov crop loc) ∧
    calculatePremium 100000000 "wheat" { lat := 30, lng := 10 } = 5000000 ∧
    (exS2.policies 1).map InsurancePolicy.status = some PolicyStatus.active ∧
    (exS2.policies 1).map InsurancePolicy.premiumPaid = some 5000000 := by
  refine ⟨?_, calculatePremium_eq_specPremiumFormula, by decide, by decide,
    by decide⟩
  intro s farmer now i s' pid h
  rcases hval : validatePolicyInputs now i with _ | _
  · rw [createPolicy, hval] at h
    cases h
  · rw [createPolicy, hval] at h
    simp only [if_true] at h
    cases h with
    | refl => simp [updN]

/-- C6 witness: the scenario createPolicy call stores the pending wheat
policy with zero premium paid and the computed premium. -/
theorem premium_pricing_correct_witness :
    (exS1.policies 1).map InsurancePolicy.status = some PolicyStatus.pending ∧
    (exS1.policies 1).map InsurancePolicy.premiumPaid = some 0 ∧
    (exS1.policies 1).map InsurancePolicy.premium =
      some (calculatePremium exInputs.coverageAmount exInputs.cropType
        exInputs.farmLocation) :=
  premium_pricing_correct.1 exS0 exFarmer exNow exInputs exS1 1 rfl

/-- C7 counterexample: a coverage window starting exactly at the current
time passes validation and createPolicy succeeds, against the claim that
a start time equal to the current time is rejected. -/
theorem start_equal_now_accepted :
    exInputs.startDate = exNow ∧
    validatePolicyInputs exNow exInputs = true ∧
    okB (createPolicy exS0 exFarmer exNow exInputs) = true := by
  exact ⟨rfl, by decide, by decide⟩

/-- C7 amended: validation accepts exactly the inputs with coverage in
bounds, a known crop, coordinates in range, internally consistent
thresholds that also lie in the fixed plausibility ranges, a start at or
after the current time, and a window length between 30 and 365 days; and
createPolicy succeeds exactly on validated inputs. -/
theorem validatePolicyInputs_characterization :
    (∀ now i, validatePolicyInputs now i = true ↔
      (MIN_PREMIUM_USDC ≤ i.coverageAmount ∧
       i.coverageAmount ≤ MAX_COVERAGE_USDC ∧
       lowerStr i.cropType ∈ validCrops ∧
       (-90 ≤ i.farmLocation.lat ∧ i.farmLocation.lat ≤ 90) ∧
       (-180 ≤ i.farmLocation.lng ∧ i.farmLocation.lng ≤ 180) ∧
       i.weatherParameters.minTemp < i.weatherParameters.maxTemp ∧
       i.weatherParameters.minRainfall < i.weatherParameters.maxRainfall ∧
       (-50 ≤ i.weatherParameters.minTemp ∧
        i.weatherParameters.maxTemp ≤ 60) ∧
       (0 ≤ i.weatherParameters.minRainfall ∧
        i.weatherParameters.maxRainfall ≤ 5000) ∧
       now ≤ i.startDate ∧
       i.startDate < i.endDate ∧
       2592000000 ≤ i.endDate - i.startDate ∧
       i.endDate - i.startDate ≤ 31536000000)) ∧
    (∀ s farmer now i,
      okB (createPolicy s farmer now i) = validatePolicyInputs now i) := by
  constructor
  · intro now i
    simp only [validatePolicyInputs, Bool.and_eq_true, decide_eq_true_eq,
      List.elem_iff]
    norm_num
    tauto
  · intro s farmer now i
    rcases hval : validatePolicyInputs now i with _ | _ <;>
      simp [createPolicy, okB, hval]

/-- The active policy after exact settlement of the premium. -/
def exPolicy1A : InsurancePolicy :=
  { exPolicy1 with
      premiumPaid := 5000000
      status := PolicyStatus.active
      isActive := true }

/-- Temperature outside the policy bounds, as tested by the automatic
claim evaluation. -/
def tempBreachW (w : WeatherData) (p : WeatherParameters) : Bool :=
  decide (w.temperature < p.minTemp) || decide (w.temperature > p.maxTemp)

/-- Rainfall outside the policy bounds, as tested by the automatic claim
evaluation. -/
def rainBreachW (w : WeatherData) (p : WeatherParameters) : Bool :=
  decide (w.rainfall < p.minRainfall) || decide (w.rainfall > p.maxRainfall)

/-- When the observation breaches neither dimension, automatic
evaluation succeeds and leaves the state untouched. -/
lemma pca_ok_of_no_breach (s : ContractState) (pred : String) (cid : Nat)
    (c : Claim) (p : InsurancePolicy) (hc : s.claims cid = some c)
    (hp : s.policies c.policyId = some p)
    (ht : tempBreachW c.weatherData p.weatherParameters = false)
    (hr : rainBreachW c.weatherData p.weatherParameters = false) :
    processClaimAutomatically s pred cid = Except.ok s := by
  unfold processClaimAutomatically
  simp only [hc, hp]
  rw [show (decide (c.weatherData.temperature < p.weatherParameters.minTemp) ||
      decide (c.weatherData.temperature > p.weatherParameters.maxTemp)) =
      tempBreachW c.weatherData p.weatherParameters from rfl,
    show (decide (c.weatherData.rainfall < p.weatherParameters.minRainfall) ||
      decide (c.weatherData.rainfall > p.weatherParameters.maxRainfall)) =
      rainBreachW c.weatherData p.weatherParameters from rfl, ht, hr]
  rfl

/-- When the observation breaches a dimension and the transaction caller
is not the contract account, automatic evaluation propagates the
triggerPayout panic. -/
lemma pca_error_of_breach (s : ContractState) (pred : String) (cid : Nat)
    (c : Claim) (p : InsurancePolicy) (hc : s.claims cid = some c)
    (hp : s.policies c.policyId = some p)
    (hbr : (tempBreachW c.weatherData p.weatherParameters ||
      rainBreachW c.weatherData p.weatherParameters) = true)
    (hpred : pred ≠ CURRENT_ACCOUNT) :
    processClaimAutomatically s pred cid =
      Except.error "Only contract can trigger payouts" := by
  unfold processClaimAutomatically
  simp only [hc, hp]
  rw [show (decide (c.weatherData.temperature < p.weatherParameters.minTemp) ||
      decide (c.weatherData.temperature > p.weatherParameters.maxTemp)) =
      tempBreachW c.weatherData p.weatherParameters from rfl,
    show (decide (c.weatherData.rainfall < p.weatherParameters.minRainfall) ||
      decide (c.weatherData.rainfall > p.weatherParameters.maxRainfall)) =
      rainBreachW c.weatherData p.weatherParameters from rfl, hbr]
  unfold executePayout triggerPayout
  simp [updN, hpred]

/-- When the transaction caller is the contract account itself, the
payout completes. -/
lemma executePayout_ok_of_self (s : ContractState) (cid : Nat) :
    ∃ s', executePayout s CURRENT_ACCOUNT cid = Except.ok s' := by
  unfold executePayout triggerPayout
  rcases hc : s.claims cid with _ | cl
  · exact ⟨s, by simp [hc]⟩
  · by_cases hst : cl.status = ClaimStatus.approved
    · rcases hpol : s.policies cl.policyId with _ | p
      · exact ⟨{ s with
            claims := (updN s.claims cid { cl with status := ClaimStatus.paid })
            totalClaimsPaid := s.totalClaimsPaid + cl.claimAmount },
          by simp [hc, hst, hpol]⟩
      · exact ⟨{ s with
            claims := (updN s.claims cid { cl with status := ClaimStatus.paid })
            policies := (updN s.policies cl.policyId
              { p with
                  claimsPaid := p.claimsPaid + cl.claimAmount
                  status := PolicyStatus.claimed })
            totalClaimsPaid := s.totalClaimsPaid + cl.claimAmount },
          by simp [hc, hst, hpol]⟩
    · exact ⟨s, by simp [hc, hst]⟩

/-- When the transaction caller is the contract account itself,
automatic evaluation always succeeds. -/
lemma pca_ok_of_self (s : ContractState) (cid : Nat) :
    ∃ s', processClaimAutomatically s CURRENT_ACCOUNT cid = Except.ok s' := by
  unfold processClaimAutomatically
  rcases hc : s.claims cid with _ | cl
  · exact ⟨s, by simp [hc]⟩
  · rcases hp : s.policies cl.policyId with _ | p
    · exact ⟨s, by simp [hc, hp]⟩
    · cases hbreach : ((decide (cl.weatherData.temperature <
            p.weatherParameters.minTemp) ||
          decide (cl.weatherData.temperature > p.weatherParameters.maxTemp)) ||
          (decide (cl.weatherData.rainfall < p.weatherParameters.minRainfall) ||
            decide (cl.weatherData.rainfall > p.weatherParameters.maxRainfall)))
      · exact ⟨s, by simp [hc, hp, hbreach]⟩
      · simp only [hc, hp, hbreach]
        simpa using executePayout_ok_of_self _ cid

/-- C7 witness: the characterization instantiated on the scenario
inputs, whose window starts exactly at the current time. -/
theorem validatePolicyInputs_characterization_witness :
    validatePolicyInputs exNow exInputs = true ∧
    okB (createPolicy exS0 exFarmer exNow exInputs) =
      validatePolicyInputs exNow exInputs :=
  ⟨(validatePolicyInputs_characterization.1 exNow exInputs).mpr (by decide),
   validatePolicyInputs_characterization.2 exS0 exFarmer exNow exInputs⟩

/-- C5 counterexample: a policy whose status is Claimed but whose
isActive flag is still true accepts a further claim.  Two reachable
routes: the status overwritten to Claimed by update_policy_status, and
the policy claimed through a completed payout (the contract account
filing on its own policy), whose claim is already paid. -/
theorem fileClaim_succeeds_on_claimed_policy :
    Reachable exU3 ∧
    (exU3.policies 1).map InsurancePolicy.status = some PolicyStatus.claimed ∧
    (exU3.policies 1).map InsurancePolicy.isActive = some true ∧
    okB (fileClaim exU3 exFarmer 1700000200000 1 "second claim"
      exCalmWeather) = true ∧
    Reachable exT3 ∧
    (exT3.policies 1).map InsurancePolicy.status = some PolicyStatus.claimed ∧
    (exT3.claims 1).map Claim.status = some ClaimStatus.paid ∧
    okB (fileClaim exT3 CURRENT_ACCOUNT 1700000200000 1 "second claim"
      exCalmWeather) = true := by
  refine ⟨?_, by decide, by decide, by decide, ?_, by decide, by decide,
    by decide⟩ <;>
    exact Reachable.step _ (Reachable.step _ (Reachable.step _
      (Reachable.init exOwner)))

/-- C5 amended: fileClaim checks the isActive flag, not the lifecycle
status: a missing policy, a non-owner caller or a cleared flag fail with
the respective errors; with the flag set, the filing succeeds when the
observation breaches nothing (the stored claim stays pending), aborts
with the triggerPayout panic instead of PolicyNotActive when it breaches
and the caller is not the contract account, and succeeds whenever the
caller is the contract account. -/
theorem fileClaim_requires_isActive (s : ContractState) (caller : String)
    (ts : Nat) (pid : Nat) (reason : String) (wd : WeatherData) :
    (s.policies pid = none →
      fileClaim s caller ts pid reason wd =
        Except.error "Policy not found") ∧
    (∀ p, s.policies pid = some p → p.farmer ≠ caller →
      fileClaim s caller ts pid reason wd =
        Except.error "Only policy owner can file claims") ∧
    (∀ p, s.policies pid = some p → p.farmer = caller → p.isActive = false →
      fileClaim s caller ts pid reason wd =
        Except.error "Policy is not active") ∧
    (∀ p, s.policies pid = some p → p.farmer = caller → p.isActive = true →
      tempBreachW wd p.weatherParameters = false →
      rainBreachW wd p.weatherParameters = false →
      okB (fileClaim s caller ts pid reason wd) = true) ∧
    (∀ p, s.policies pid = some p → p.farmer = caller → p.isActive = true →
      (tempBreachW wd p.weatherParameters ||
        rainBreachW wd p.weatherParameters) = true →
      caller ≠ CURRENT_ACCOUNT →
      fileClaim s caller ts pid reason wd =
        Except.error "Only contract can trigger payouts") ∧
    (∀ p, s.policies pid = some p → p.farmer = caller → p.isActive = true →
      caller = CURRENT_ACCOUNT →
      okB (fileClaim s caller ts pid reason wd) = true) := by
  refine ⟨?_, ?_, ?_, ?_, ?_, ?_⟩
  · intro h
    simp [fileClaim, h]
  · intro p hp hf
    simp [fileClaim, hp, hf]
  · intro p hp hf ha
    simp [fileClaim, hp, hf, ha]
  · intro p hp hf ha ht hr
    have hpca := pca_ok_of_no_breach
      { s with
          claims := (updN s.claims (s.totalClaims + 1)
            ⟨s.totalClaims + 1, pid, caller, 0, reason, wd,
              ClaimStatus.pending, ts⟩)
          totalClaims := s.totalClaims + 1 }
      caller (s.totalClaims + 1)
      ⟨s.totalClaims + 1, pid, caller, 0, reason, wd,
        ClaimStatus.pending, ts⟩ p
      (by simp [updN]) hp ht hr
    simp [fileClaim, hp, hf, ha, hpca, okB]
  · intro p hp hf ha hbr hpred
    have hpca := pca_error_of_breach
      { s with
          claims := (updN s.claims (s.totalClaims + 1)
            ⟨s.totalClaims + 1, pid, caller, 0, reason, wd,
              ClaimStatus.pending, ts⟩)
          totalClaims := s.totalClaims + 1 }
      caller (s.totalClaims + 1)
      ⟨s.totalClaims + 1, pid, caller, 0, reason, wd,
        ClaimStatus.pending, ts⟩ p
      (by simp [updN]) hp hbr hpred
    simp [fileClaim, hp, hf, ha, hpca]
  · intro p hp hf ha hself
    subst hself
    obtain ⟨s2, hpca⟩ := pca_ok_of_self
      { s with
          claims := (updN s.claims (s.totalClaims + 1)
            ⟨s.totalClaims + 1, pid, CURRENT_ACCOUNT, 0, reason, wd,
              ClaimStatus.pending, ts⟩)
          totalClaims := s.totalClaims + 1 }
      (s.totalClaims + 1)
    simp [fileClaim, hp, hf, ha, hpca, okB]

/-- C5 witness: a claim on a missing policy fails; a calm claim by the
owner of the active policy succeeds; a breaching claim by the same
owner aborts with the payout panic. -/
theorem fileClaim_requires_isActive_witness :
    fileClaim exS0 exFarmer 7 1 "r" exWeather =
      Except.error "Policy not found" ∧
    okB (fileClaim exS2 exFarmer 1700000100000 1 "r" exCalmWeather) = true ∧
    fileClaim exS2 exFarmer 1700000100000 1 "r" exWeather =
      Except.error "Only contract can trigger payouts" := by
  refine ⟨?_, ?_, ?_⟩
  · exact (fileClaim_requires_isActive exS0 exFarmer 7 1 "r" exWeather).1
      (by decide)
  · exact (fileClaim_requires_isActive exS2 exFarmer 1700000100000 1 "r"
      exCalmWeather).2.2.2.1 exPolicy1A (by decide) (by decide) (by decide)
      (by decide) (by decide)
  · exact (fileClaim_requires_isActive exS2 exFarmer 1700000100000 1 "r"
      exWeather).2.2.2.2.1 exPolicy1A (by decide) (by decide) (by decide)
      (by decide) (by decide)

/-- C1 counterexample: replaying the settlement delivery against the
already active policy is not refused: it returns a refund of 0 instead
of the full 5000000 and mutates totalPremiumsCollected. -/
theorem ft_on_transfer_replay_mutates :
    Reachable exS2 ∧
    (exS2.policies 1).map InsurancePolicy.status = some PolicyStatus.active ∧
    exS2.totalPremiumsCollected = 5000000 ∧
    refundOf (ft_on_transfer exS2 USDC_CONTRACT exFarmer 5000000 (some 1)) =
      some 0 ∧
    exS2replay.totalPremiumsCollected = 10000000 := by
  refine ⟨?_, by decide, by decide, by decide, by decide⟩
  exact Reachable.step _ (Reachable.step _ (Reachable.init exOwner))

/-- C1 amended: the settlement callback aborts for a caller other than
the token contract, refunds the full amount with no state change when
the message is unparseable, the policy is missing, the payer is not the
owner, or the amount is below the premium, and otherwise activates the
policy whatever its current status, recording the full amount and
refunding only the excess. -/
theorem ft_on_transfer_refund_paths (s : ContractState)
    (pred sender : String) (amount : Nat) (msg : Option Nat) :
    (pred ≠ USDC_CONTRACT →
      ft_on_transfer s pred sender amount msg =
        Except.error "Only USDC contract can call ft_on_transfer") ∧
    (msg = none → pred = USDC_CONTRACT →
      ft_on_transfer s pred sender amount msg = Except.ok (s, amount)) ∧
    (∀ pid, msg = some pid → pred = USDC_CONTRACT → s.policies pid = none →
      ft_on_transfer s pred sender amount msg = Except.ok (s, amount)) ∧
    (∀ pid p, msg = some pid → pred = USDC_CONTRACT →
      s.policies pid = some p → p.farmer ≠ sender →
      ft_on_transfer s pred sender amount msg = Except.ok (s, amount)) ∧
    (∀ pid p, msg = some pid → pred = USDC_CONTRACT →
      s.policies pid = some p → p.farmer = sender → amount < p.premium →
      ft_on_transfer s pred sender amount msg = Except.ok (s, amount)) ∧
    (∀ pid p, msg = some pid → pred = USDC_CONTRACT →
      s.policies pid = some p → p.farmer = sender → p.premium ≤ amount →
      ft_on_transfer s pred sender amount msg =
        Except.ok
          ({ s with
              policies := updN s.policies pid
                { p with
                    premiumPaid := amount
                    status := PolicyStatus.active
                    isActive := true }
              totalPremiumsCollected := s.totalPremiumsCollected + amount },
            amount - p.premium)) := by
  refine ⟨?_, ?_, ?_, ?_, ?_, ?_⟩
  · intro h
    simp [ft_on_transfer, h]
  · rintro rfl rfl
    simp [ft_on_transfer]
  · rintro pid rfl rfl h
    simp [ft_on_transfer, h]
  · rintro pid p rfl rfl hp hf
    simp [ft_on_transfer, hp, hf]
  · rintro pid p rfl rfl hp hf hlt
    simp only [ft_on_transfer, ne_eq, not_true_eq_false, if_false, hp]
    rw [if_neg (by simp [hf]), if_pos hlt]
  · rintro pid p rfl rfl hp hf hle
    simp only [ft_on_transfer, ne_eq, not_true_eq_false, if_false, hp]
    rw [if_neg (by simp [hf]), if_neg (Nat.not_lt.mpr hle)]

/-- C1 witness: the refund-all paths and the activation path at concrete
inputs on the scenario states. -/
theorem ft_on_transfer_refund_paths_witness :
    ft_on_transfer exS1 "mallory.testnet" exFarmer 5000000 (some 1) =
      Except.error "Only USDC contract can call ft_on_transfer" ∧
    ft_on_transfer exS1 USDC_CONTRACT exFarmer 5000000 none =
      Except.ok (exS1, 5000000) ∧
    ft_on_transfer exS1 USDC_CONTRACT exFarmer 5000000 (some 99) =
      Except.ok (exS1, 5000000) ∧
    ft_on_transfer exS1 USDC_CONTRACT "mallory.testnet" 5000000 (some 1) =
      Except.ok (exS1, 5000000) ∧
    ft_on_transfer exS1 USDC_CONTRACT exFarmer 1000000 (some 1) =
      Except.ok (exS1, 1000000) ∧
    refundOf (ft_on_transfer exS1 USDC_CONTRACT exFarmer 5000000 (some 1)) =
      some 0 := by
  refine ⟨?_, ?_, ?_, ?_, ?_, ?_⟩
  · exact (ft_on_transfer_refund_paths exS1 "mallory.testnet" exFarmer
      5000000 (some 1)).1 (by decide)
  · exact (ft_on_transfer_refund_paths exS1 USDC_CONTRACT exFarmer
      5000000 none).2.1 rfl rfl
  · exact (ft_on_transfer_refund_paths exS1 USDC_CONTRACT exFarmer
      5000000 (some 99)).2.2.1 99 rfl rfl (by decide)
  · exact (ft_on_transfer_refund_paths exS1 USDC_CONTRACT "mallory.testnet"
      5000000 (some 1)).2.2.2.1 1 exPolicy1 rfl rfl (by decide) (by decide)
  · exact (ft_on_transfer_refund_paths exS1 USDC_CONTRACT exFarmer
      1000000 (some 1)).2.2.2.2.1 1 exPolicy1 rfl rfl (by decide) (by decide)
      (by decide)
  · rw [(ft_on_transfer_refund_paths exS1 USDC_CONTRACT exFarmer
      5000000 (some 1)).2.2.2.2.2 1 exPolicy1 rfl rfl (by decide) (by decide)
      (by decide)]
    rfl

/-- C2 counterexample: update_policy_status pushes the active policy back
to pending, and process_policy_claims moves a pending policy directly to
claimed, skipping the active step. -/
theorem status_can_revisit_pending :
    Reachable exS2 ∧
    (exS2.policies 1).map InsurancePolicy.status = some PolicyStatus.active ∧
    (exS2back.policies 1).map InsurancePolicy.status =
      some PolicyStatus.pending ∧
    (exS1.policies 1).map InsurancePolicy.status = some PolicyStatus.pending ∧
    (exS1jump.policies 1).map InsurancePolicy.status =
      some PolicyStatus.claimed := by
  refine ⟨?_, by decide, by decide, by decide, by decide⟩
  exact Reachable.step _ (Reachable.step _ (Reachable.init exOwner))

/-- C2 amended: update_policy_status overwrites the status of an existing
policy with any requested value without validating the transition, and
process_policy_claims moves a pending policy whose rainfall is below the
fixed threshold directly to claimed. -/
theorem status_transitions_unrestricted :
    (∀ s pid st p, s.policies pid = some p →
      ∃ s', update_policy_status s pid st = Except.ok s' ∧
        s'.policies pid = some { p with status := st }) ∧
    (∀ s pid p ar wc tt, s.policies pid = some p →
      p.status = PolicyStatus.pending → ar < 30 →
      ∃ s', process_policy_claims s pid ar wc tt = Except.ok (s', true) ∧
        (s'.policies pid).map InsurancePolicy.status =
          some PolicyStatus.claimed) := by
  constructor
  · intro s pid st p hp
    refine ⟨{ s with policies :=
        (updN s.policies pid { p with status := st }) }, ?_, ?_⟩
    · simp [update_policy_status, hp]
    · simp [updN]
  · intro s pid p ar wc tt hp hst hlt
    refine ⟨{ s with policies :=
        (updN s.policies pid
          { p with
              status := PolicyStatus.claimed
              payoutTrigger := some
                { triggeredAt := tt, actualRainfall := ar,
                  expectedRainfall := 30, weatherCid := wc } }) }, ?_, ?_⟩
    · simp only [process_policy_claims, hp, hst]
      rw [if_neg (not_le.mpr hlt)]
      simp
    · simp [updN]

/-- C2 witness: the active scenario policy moved back to pending, and the
pending scenario policy moved straight to claimed. -/
theorem status_transitions_unrestricted_witness :
    (∃ s', update_policy_status exS2 1 PolicyStatus.pending =
        Except.ok s' ∧
      s'.policies 1 = some { exPolicy1A with status := PolicyStatus.pending }) ∧
    (∃ s', process_policy_claims exS1 1 20 "bafyCid" "t0" =
        Except.ok (s', true) ∧
      (s'.policies 1).map InsurancePolicy.status =
        some PolicyStatus.claimed) :=
  ⟨status_transitions_unrestricted.1 exS2 1 PolicyStatus.pending exPolicy1A
      (by decide),
   status_transitions_unrestricted.2 exS1 1 exPolicy1 20 "bafyCid" "t0"
      (by decide) (by decide) (by decide)⟩

/-- C4: evaluating the code at the failing input.  The farmer files the
breaching claim of the scenario on its own active policy, and the call
aborts inside triggerPayout (the predecessor is the farmer, not the
contract account), so the whole call reverts: no claim amount of
60000000 is recorded and the policy never becomes Claimed.  Only when
the transaction caller is the contract account itself does the intended
computation complete, with exactly the amount and status the claim (and
the repository sandbox test) describes. -/
theorem automatic_payout_panics_for_farmer :
    fileClaim exS2 exFarmer 1700000100000 1 "Extreme temperature damage"
      exWeather = Except.error "Only contract can trigger payouts" ∧
    applyOp exS2
      (Op.fileClaim exFarmer 1700000100000 1 "Extreme temperature damage"
        exWeather) = exS2 ∧
    (exT3.claims 1).map Claim.claimAmount = some 60000000 ∧
    (exT3.claims 1).map Claim.status = some ClaimStatus.paid ∧
    (exT3.policies 1).map InsurancePolicy.status =
      some PolicyStatus.claimed := by
  exact ⟨rfl, rfl, by decide, by decide, by decide⟩

/-- A successful executePayout leaves every other claim key untouched
and does not change the claim counter. -/
lemma executePayout_ok_claims (s : ContractState) (pred : String)
    (cid : Nat) (s' : ContractState)
    (h : executePayout s pred cid = Except.ok s') :
    (∀ k, k ≠ cid → s'.claims k = s.claims k) ∧
      s'.totalClaims = s.totalClaims := by
  unfold executePayout triggerPayout at h
  rcases hc : s.claims cid with _ | cl
  · simp only [hc] at h
    injection h with h
    subst h
    exact ⟨fun k _ => rfl, rfl⟩
  · simp only [hc] at h
    by_cases hst : cl.status = ClaimStatus.approved
    · by_cases hpred : pred = CURRENT_ACCOUNT
      · rcases hpol : s.policies cl.policyId with _ | p <;>
          simp [hst, hpred, hpol] at h <;>
          subst h <;>
          exact ⟨fun k hk => by simp [updN, hk], rfl⟩
      · simp [hst, hpred] at h
    · simp [hst] at h
      subst h
      exact ⟨fun k _ => rfl, rfl⟩

/-- A successful automatic evaluation leaves every other claim key
untouched and does not change the claim counter. -/
lemma pca_ok_claims (s : ContractState) (pred : String) (cid : Nat)
    (s' : ContractState)
    (h : processClaimAutomatically s pred cid = Except.ok s') :
    (∀ k, k ≠ cid → s'.claims k = s.claims k) ∧
      s'.totalClaims = s.totalClaims := by
  unfold processClaimAutomatically at h
  rcases hc : s.claims cid with _ | cl
  · simp only [hc] at h
    injection h with h
    subst h
    exact ⟨fun k _ => rfl, rfl⟩
  · rcases hp : s.policies cl.policyId with _ | p
    · simp only [hc, hp] at h
      injection h with h
      subst h
      exact ⟨fun k _ => rfl, rfl⟩
    · simp only [hc, hp] at h
      split at h
      · obtain ⟨h1, h2⟩ := executePayout_ok_claims _ _ _ _ h
        refine ⟨fun k hk => ?_, h2⟩
        rw [h1 k hk]
        simp [updN, hk]
      · injection h with h
        subst h
        exact ⟨fun k _ => rfl, rfl⟩

set_option maxHeartbeats 3200000 in
/-- How one entry-point call can touch the claims map: not at all, or by
inserting and evaluating the fresh claim of fileClaim (all other keys
untouched, counter incremented), or by marking an existing approved
claim paid in adminTriggerPayout (counter unchanged). -/
lemma applyOp_claims_cases (s : ContractState) (op : Op) :
    ((applyOp s op).claims = s.claims ∧
      (applyOp s op).totalClaims = s.totalClaims) ∨
    ((∀ k, k ≠ s.totalClaims + 1 → (applyOp s op).claims k = s.claims k) ∧
      (applyOp s op).totalClaims = s.totalClaims + 1) ∨
    (∃ cid cl, s.claims cid = some cl ∧
      cl.status = ClaimStatus.approved ∧
      (applyOp s op).claims =
        (updN s.claims cid { cl with status := ClaimStatus.paid }) ∧
      (applyOp s op).totalClaims = s.totalClaims) := by
  cases op with
  | createPolicy farmer now i =>
    left
    rcases hv : validatePolicyInputs now i <;>
      constructor <;> simp [applyOp, createPolicy, hv]
  | ft_on_transfer pred sender amount msg =>
    left
    by_cases h1 : pred = USDC_CONTRACT
    · subst h1
      rcases msg with _ | pid
      · constructor <;> simp [applyOp, ft_on_transfer]
      · rcases hp : s.policies pid with _ | p
        · constructor <;> simp [applyOp, ft_on_transfer, hp]
        · by_cases hf : p.farmer = sender
          · by_cases hlt : amount < p.premium
            · constructor <;> simp [applyOp, ft_on_transfer, hp, hf, hlt]
            · constructor <;> simp [applyOp, ft_on_transfer, hp, hf, hlt]
          · constructor <;> simp [applyOp, ft_on_transfer, hp, hf]
    · constructor <;> simp [applyOp, ft_on_transfer, h1]
  | submitWeatherData caller ts st t r h w cid =>
    left
    by_cases ho : s.authorizedOracles caller = some true <;>
      constructor <;> simp [applyOp, submitWeatherData, ho]
  | fileClaim caller ts pid reason wd =>
    rcases hp : s.policies pid with _ | p
    · left
      constructor <;> simp [applyOp, fileClaim, hp]
    · by_cases hf : p.farmer = caller
      · rcases ha : p.isActive with _ | _
        · left
          constructor <;> simp [applyOp, fileClaim, hp, hf, ha]
        · rcases hres : processClaimAutomatically
              { s with
                  claims := (updN s.claims (s.totalClaims + 1)
                    ⟨s.totalClaims + 1, pid, caller, 0, reason, wd,
                      ClaimStatus.pending, ts⟩)
                  totalClaims := s.totalClaims + 1 }
              caller (s.totalClaims + 1) with e | s2
          · left
            constructor <;> simp [applyOp, fileClaim, hp, hf, ha, hres]
          · right; left
            have heq : applyOp s (Op.fileClaim caller ts pid reason wd) = s2 := by
              simp [applyOp, fileClaim, hp, hf, ha, hres]
            obtain ⟨h1, h2⟩ := pca_ok_claims _ _ _ _ hres
            constructor
            · intro k hk
              rw [heq, h1 k hk]
              simp [updN, hk]
            · rw [heq, h2]
      · left
        constructor <;> simp [applyOp, fileClaim, hp, hf]
  | triggerPayout caller recipient amount =>
    left
    by_cases htp : caller = CURRENT_ACCOUNT <;>
      constructor <;> simp [applyOp, triggerPayout, htp]
  | adminTriggerPayout a rcp amt cid =>
    by_cases how : a = s.owner
    · rcases hcl : s.claims cid with _ | cl
      · left
        constructor <;> simp [applyOp, adminTriggerPayout, how, hcl]
      · by_cases hap : cl.status = ClaimStatus.approved
        · by_cases hpred : a = CURRENT_ACCOUNT
          · have hoc : s.owner = CURRENT_ACCOUNT := by
              rw [← how, hpred]
            right; right
            refine ⟨cid, cl, hcl, hap, ?_, ?_⟩
            · rcases hpol : s.policies cl.policyId <;>
                simp [applyOp, adminTriggerPayout, triggerPayout, how, hcl,
                  hap, hpred, hoc, hpol]
            · rcases hpol : s.policies cl.policyId <;>
                simp [applyOp, adminTriggerPayout, triggerPayout, how, hcl,
                  hap, hpred, hoc, hpol]
          · have hoc : ¬s.owner = CURRENT_ACCOUNT := by
              rw [← how]
              exact hpred
            left
            constructor <;> simp [applyOp, adminTriggerPayout, triggerPayout,
              how, hcl, hap, hoc]
        · left
          constructor <;> simp [applyOp, adminTriggerPayout, how, hcl, hap]
    · left
      constructor <;> simp [applyOp, adminTriggerPayout, how]
  | addOracle caller oracle =>
    left
    by_cases h : caller = s.owner <;>
      constructor <;> simp [applyOp, addOracle, h]
  | removeOracle caller oracle =>
    left
    by_cases h : caller = s.owner <;>
      constructor <;> simp [applyOp, removeOracle, h]
  | receive_weather caller st ts cid =>
    left
    by_cases ho : s.authorizedOracles caller = some true <;>
      constructor <;> simp [applyOp, receive_weather, ho]
  | create_policy f ct cov prem rt sid ss se =>
    left
    constructor <;> simp [applyOp, create_policy]
  | process_policy_claims pid ar wc tt =>
    left
    rcases hp : s.policies pid with _ | p
    · constructor <;> simp [applyOp, process_policy_claims, hp]
    · by_cases hst : p.status = PolicyStatus.pending
      · by_cases har : (30 : Rat) ≤ ar <;>
          constructor <;> simp [applyOp, process_policy_claims, hp, hst, har]
      · constructor <;> simp [applyOp, process_policy_claims, hp, hst]
  | update_policy_status pid st =>
    left
    rcases hp : s.policies pid with _ | p <;>
      constructor <;> simp [applyOp, update_policy_status, hp]

/-- Claim keys above the claim counter are unused. -/
def ClaimsBounded (s : ContractState) : Prop :=
  ∀ k, s.totalClaims < k → s.claims k = none

/-- Every reachable state keeps its claim keys below the counter. -/
lemma reachable_claimsBounded {s : ContractState} (hs : Reachable s) :
    ClaimsBounded s := by
  induction hs with
  | init owner =>
    intro k hk
    rfl
  | step op hs ih =>
    rcases applyOp_claims_cases _ op with ⟨hcl, htot⟩ |
      ⟨hcl, htot⟩ | ⟨cid, cl, hcid, _, hcl, htot⟩
    · intro k hk
      rw [hcl]
      exact ih k (htot ▸ hk)
    · intro k hk
      rw [htot] at hk
      rw [hcl k (by omega)]
      exact ih k (by omega)
    · intro k hk
      rw [htot] at hk
      have hkcid : k ≠ cid := by
        intro h
        subst h
        have hnone := ih k hk
        rw [hnone] at hcid
        cases hcid
      rw [hcl]
      simp only [updN, hkcid, if_false]
      exact ih k hk

/-- C3: in every reachable state, one further entry-point call leaves a
claim that is already approved or paid with the same claimAmount, keeps
a paid claim paid, and moves an approved claim at most to paid: the paid
transition happens at most once and the amount is frozen at approval. -/
theorem claim_paid_absorbing (s : ContractState) (hs : Reachable s)
    (op : Op) (k : Nat) (c : Claim) (hc : s.claims k = some c)
    (hst : c.status = ClaimStatus.approved ∨ c.status = ClaimStatus.paid) :
    ∃ c', (applyOp s op).claims k = some c' ∧
      c'.claimAmount = c.claimAmount ∧
      (c.status = ClaimStatus.paid → c'.status = ClaimStatus.paid) ∧
      (c.status = ClaimStatus.approved →
        c'.status = ClaimStatus.approved ∨ c'.status = ClaimStatus.paid) := by
  have hb := reachable_claimsBounded hs
  rcases applyOp_claims_cases s op with ⟨hcl, _⟩ |
    ⟨hcl, _⟩ | ⟨cid, cl, hcid, hap, hcl, _⟩
  · exact ⟨c, by rw [hcl]; exact hc, rfl, fun h => h, fun h => Or.inl h⟩
  · have hkf : k ≠ s.totalClaims + 1 := by
      intro h
      have := hb k (by omega)
      rw [this] at hc
      cases hc
    exact ⟨c, by rw [hcl k hkf]; exact hc, rfl, fun h => h, fun h => Or.inl h⟩
  · by_cases hkc : k = cid
    · subst hkc
      have hccl : cl = c := by
        rw [hcid] at hc
        exact Option.some.inj hc
      subst hccl
      refine ⟨{ cl with status := ClaimStatus.paid }, ?_, rfl, ?_, ?_⟩
      · rw [hcl]
        simp [updN]
      · intro _
        rfl
      · intro _
        exact Or.inr rfl
    · refine ⟨c, ?_, rfl, fun h => h, fun h => Or.inl h⟩
      rw [hcl]
      simp only [updN, hkc, if_false]
      exact hc

/-- C3 witness: applying a further admin payout attempt to the state
with the paid contract-account claim leaves it paid with its amount
unchanged. -/
theorem claim_paid_absorbing_witness :
    ∃ c', (applyOp exT3 (Op.adminTriggerPayout exOwner exFarmer 1000 1)).claims 1
        = some c' ∧
      c'.claimAmount = exClaimT.claimAmount ∧
      (exClaimT.status = ClaimStatus.paid → c'.status = ClaimStatus.paid) ∧
      (exClaimT.status = ClaimStatus.approved →
        c'.status = ClaimStatus.approved ∨ c'.status = ClaimStatus.paid) :=
  claim_paid_absorbing exT3
    (Reachable.step _ (Reachable.step _ (Reachable.step _
      (Reachable.init exOwner))))
    (Op.adminTriggerPayout exOwner exFarmer 1000 1) 1 exClaimT
    (by decide) (Or.inr (by decide))

end AgriGuard
